import Mathlib

/-!
Verification of the geolocation inference pipeline of `tg-etl/transform.py`.

The Python source is shallowly embedded: texts are `String`s (processed as
`List Char`), Python floats are modelled as `ℚ`, dictionaries as association
lists in insertion order, and the regex patterns of the source are embedded as
deterministic matchers over `List Char` reproducing the leftmost,
non-overlapping semantics of `re.findall`.  Regex character classes (`\d`,
`\s`, `\w`, `[A-Z]`, `[a-z]`) are modelled at ASCII granularity.  The remote
Mapbox geocoding call is an external capability and enters the pipeline as an
oracle `String → Option GeoHit`; its internal control flow (rate-limit sleeps)
is embedded separately from the recorded HTTP response.
-/

set_option linter.unusedVariables false
set_option maxRecDepth 3000

/-! ## Character classes (ASCII model of the Python regex classes) -/

/-- Python regex `\s` (ASCII part): space, tab, newline, carriage return,
vertical tab, form feed. -/
def isSpaceC (c : Char) : Bool :=
  c == ' ' || c == '\t' || c == '\n' || c == '\r' ||
    c == Char.ofNat 11 || c == Char.ofNat 12

/-- Regex class `[A-Z]`. -/
def isUpperC (c : Char) : Bool := 'A' ≤ c && c ≤ 'Z'

/-- Regex class `[a-z]`. -/
def isLowerC (c : Char) : Bool := 'a' ≤ c && c ≤ 'z'

/-- Regex `\d` (ASCII digits). -/
def isDigitC (c : Char) : Bool := c.isDigit

/-- Python regex `\w` (ASCII part): letters, digits, underscore. -/
def isWordC (c : Char) : Bool := isUpperC c || isLowerC c || isDigitC c || c == '_'

/-! ## Numeric literals: `int()` / `float()` on the matched digit groups -/

/-- Value of a digit string, as read by Python `int`. -/
def digitsToNat (ds : List Char) : ℕ :=
  List.foldl (fun n c => 10 * n + (c.toNat - 48)) 0 ds

/-- Value of an optionally negated decimal literal `[-]ip.fp`, as read by
Python `float` (modelled exactly in `ℚ`). -/
def decValue (neg : Bool) (ip fp : List Char) : ℚ :=
  let v : ℚ := (digitsToNat ip : ℚ) + (digitsToNat fp : ℚ) / (10 ^ fp.length)
  if neg then -v else v

/-! ## Matchers for the three coordinate patterns of `extract_coordinates` -/

/-- Match `-?\d+\.\d+` at the head of `s`, returning the parsed value and the
rest of the input.  The greedy `\d+` spans are deterministic because a digit
is never `.`. -/
def matchDecNum (s : List Char) : Option (ℚ × List Char) :=
  let (neg, s1) : Bool × List Char :=
    match s with
    | '-' :: t => (true, t)
    | _ => (false, s)
  let d1 := s1.takeWhile isDigitC
  let r1 := s1.dropWhile isDigitC
  if d1 = [] then none
  else
    match r1 with
    | '.' :: r2 =>
      let d2 := r2.takeWhile isDigitC
      let r3 := r2.dropWhile isDigitC
      if d2 = [] then none else some (decValue neg d1 d2, r3)
    | _ => none

/-- Match pattern 1 of `extract_coordinates`,
`(-?\d+\.\d+),\s*(-?\d+\.\d+)`, at the head of `s`. -/
def matchDecPairAt (s : List Char) : Option ((ℚ × ℚ) × List Char) :=
  match matchDecNum s with
  | none => none
  | some (a, r1) =>
    match r1 with
    | ',' :: r2 =>
      let r3 := r2.dropWhile isSpaceC
      match matchDecNum r3 with
      | none => none
      | some (b, r4) => some ((a, b), r4)
    | _ => none

/-- The (mojibake) degree character U+C9F8 that the source's DMS regex
literally contains. -/
def degC : Char := Char.ofNat 0xC9F8

/-- Match `\d+` at the head of `s`, returning the parsed `int`. -/
def matchNatNum (s : List Char) : Option (ℕ × List Char) :=
  let d := s.takeWhile isDigitC
  if d = [] then none else some (digitsToNat d, s.dropWhile isDigitC)

/-- Match `\d+\.?\d*` (the seconds group of the DMS pattern) at the head of
`s`, returning the parsed `float` value. -/
def matchSecNum (s : List Char) : Option (ℚ × List Char) :=
  let d1 := s.takeWhile isDigitC
  let r1 := s.dropWhile isDigitC
  if d1 = [] then none
  else
    match r1 with
    | '.' :: r2 =>
      some (decValue false d1 (r2.takeWhile isDigitC), r2.dropWhile isDigitC)
    | _ => some ((digitsToNat d1 : ℚ), r1)

/-- One hemisphere half of the DMS pattern:
`(\d+)째(\d+)\'(\d+\.?\d*)"(dir)` where `dir` is one of the two given
hemisphere letters.  Returns `(degrees, minutes, seconds, direction)`. -/
def matchDMSHalf (dir1 dir2 : Char) (s : List Char) :
    Option ((ℕ × ℕ × ℚ × Char) × List Char) :=
  match matchNatNum s with
  | none => none
  | some (deg, r1) =>
    match r1 with
    | c :: r2 =>
      if c = degC then
        match matchNatNum r2 with
        | none => none
        | some (mn, r3) =>
          match r3 with
          | q :: r4 =>
            if q = Char.ofNat 39 then
              match matchSecNum r4 with
              | none => none
              | some (sec, r5) =>
                match r5 with
                | dq :: d :: r6 =>
                  if dq = Char.ofNat 34 && (d = dir1 || d = dir2) then
                    some ((deg, mn, sec, d), r6)
                  else none
                | _ => none
            else none
          | [] => none
      else none
    | [] => none

/-- Match pattern 2 of `extract_coordinates` (degrees-minutes-seconds with
hemisphere letters) at the head of `s`.  The group tuple has the latitude
half, then the longitude half. -/
def matchDMSAt (s : List Char) :
    Option (((ℕ × ℕ × ℚ × Char) × (ℕ × ℕ × ℚ × Char)) × List Char) :=
  match matchDMSHalf 'N' 'S' s with
  | none => none
  | some (latg, r1) =>
    match r1 with
    | ',' :: r2 =>
      let r3 := r2.dropWhile isSpaceC
      match matchDMSHalf 'E' 'W' r3 with
      | none => none
      | some (long, r4) => some ((latg, long), r4)
    | _ => none

/-- The suffix `lon:\s*(-?\d+\.\d+)` of pattern 3. -/
def matchLonSuffix (s : List Char) : Option (ℚ × List Char) :=
  match s with
  | 'l' :: 'o' :: 'n' :: ':' :: r1 =>
    matchDecNum (r1.dropWhile isSpaceC)
  | _ => none

/-- Lazy `.*?` search for the `lon:` suffix: try the suffix at each position,
shortest skip first, never crossing a newline (regex `.` excludes `\n`). -/
def findLon : List Char → Option (ℚ × List Char)
  | [] => none
  | c :: t =>
    match matchLonSuffix (c :: t) with
    | some r => some r
    | none => if c = '\n' then none else findLon t

/-- Match pattern 3 of `extract_coordinates`,
`lat:\s*(-?\d+\.\d+).*?lon:\s*(-?\d+\.\d+)`, at the head of `s`. -/
def matchP3At (s : List Char) : Option ((ℚ × ℚ) × List Char) :=
  match s with
  | 'l' :: 'a' :: 't' :: ':' :: r1 =>
    match matchDecNum (r1.dropWhile isSpaceC) with
    | none => none
    | some (a, r2) =>
      match findLon r2 with
      | none => none
      | some (b, r3) => some ((a, b), r3)
  | _ => none

/-! ## `re.findall`: leftmost, non-overlapping scan -/

/-- Scan loop of `re.findall` for a matcher that consumes at least one
character whenever it succeeds: try the matcher at each position left to
right, restarting after each match's end.  `fuel = length of the input`
suffices for those matchers. -/
def findallAux (m : List Char → Option (G × List Char)) :
    ℕ → List Char → List G
  | 0, _ => []
  | _ + 1, [] => []
  | fuel + 1, c :: t =>
    match m (c :: t) with
    | some (g, r) => g :: findallAux m fuel r
    | none => findallAux m fuel t

/-- All matches of the decimal-degree pattern, in scan order. -/
def findallDec (s : List Char) : List (ℚ × ℚ) :=
  findallAux matchDecPairAt s.length s

/-- All matches of the DMS pattern, in scan order. -/
def findallDMS (s : List Char) :
    List ((ℕ × ℕ × ℚ × Char) × (ℕ × ℕ × ℚ × Char)) :=
  findallAux matchDMSAt s.length s

/-- All matches of the `lat:`/`lon:` pattern, in scan order. -/
def findallLatLon (s : List Char) : List (ℚ × ℚ) :=
  findallAux matchP3At s.length s

/-! ## `extract_coordinates` -/

/-- Bounds check of `extract_coordinates`:
`-90 <= lat <= 90 and -180 <= lon <= 180`. -/
def coordInBounds (la lo : ℚ) : Prop :=
  -90 ≤ la ∧ la ≤ 90 ∧ -180 ≤ lo ∧ lo ≤ 180

instance (la lo : ℚ) : Decidable (coordInBounds la lo) := by
  unfold coordInBounds; infer_instance

/-- Convert one DMS hemisphere group to a signed coordinate:
`deg + min/60 + sec/3600`, negated for `S`/`W`. -/
def dmsValue (g : ℕ × ℕ × ℚ × Char) (negDir : Char) : ℚ :=
  let v : ℚ := (g.1 : ℚ) + (g.2.1 : ℚ) / 60 + g.2.2.1 / 3600
  if g.2.2.2 = negDir then -v else v

/-- `extract_coordinates(text)`: try the decimal pattern, then DMS, then the
labeled `lat:`/`lon:` pattern.  For each pattern, only the first match is
examined; if it parses but fails the bounds check, control falls through to
the next pattern (not to the next match of the same pattern). -/
def extract_coordinates (text : String) : Option (ℚ × ℚ) :=
  let p1 : Option (ℚ × ℚ) :=
    match findallDec text.data with
    | (la, lo) :: _ => if coordInBounds la lo then some (la, lo) else none
    | [] => none
  match p1 with
  | some r => some r
  | none =>
    let p2 : Option (ℚ × ℚ) :=
      match findallDMS text.data with
      | (latg, long) :: _ =>
        let la := dmsValue latg 'S'
        let lo := dmsValue long 'W'
        if coordInBounds la lo then some (la, lo) else none
      | [] => none
    match p2 with
    | some r => some r
    | none =>
      match findallLatLon text.data with
      | (la, lo) :: _ => if coordInBounds la lo then some (la, lo) else none
      | [] => none

/-! ## Capitalized-phrase machinery shared by `extract_location_entities`
and `extract_place_names` -/

/-- Match `[A-Z][a-z]+` at the head of `s`. -/
def word1 (s : List Char) : Option (List Char × List Char) :=
  match s with
  | c :: t =>
    if isUpperC c then
      let ls := t.takeWhile isLowerC
      if ls = [] then none else some (c :: ls, t.dropWhile isLowerC)
    else none
  | [] => none

/-- Greedy iteration of `(?:\s+[A-Z][a-z]+)*` after an initial word.  The
state is the current capture and rest; the second component of the output is
the capture with one iteration fewer (the single backtracking stop the
patterns of the source can ever need, since every earlier stop's rest starts
with whitespace and every `[a-z]+` give-back exposes a word character). -/
def phraseIter :
    ℕ → (List Char × List Char) → Option (List Char × List Char) →
    ((List Char × List Char) × Option (List Char × List Char))
  | 0, cur, prev => (cur, prev)
  | fuel + 1, cur, prev =>
    let sp := cur.2.takeWhile isSpaceC
    if sp = [] then (cur, prev)
    else
      match word1 (cur.2.dropWhile isSpaceC) with
      | none => (cur, prev)
      | some (w, r) => phraseIter fuel (cur.1 ++ sp ++ w, r) (some cur)

/-- Greedy match of `[A-Z][a-z]+(?:\s+[A-Z][a-z]+)*` at the head of `s`:
the maximal capture together with the one-iteration-shorter stop. -/
def phraseGreedy (s : List Char) :
    Option ((List Char × List Char) × Option (List Char × List Char)) :=
  match word1 s with
  | none => none
  | some (w, r) => some (phraseIter r.length (w, r) none)

/-- Trailing `\b` test: the next character must not be a word character. -/
def boundaryOk : List Char → Bool
  | [] => true
  | c :: _ => !(isWordC c)

/-- Match pattern 0 of `extract_location_entities`,
`([A-Z][a-z]+(?:\s+[A-Z][a-z]+)*),\s*([A-Z][a-z]+(?:\s+[A-Z][a-z]+)*)`
(no word boundaries), at the head of `s`.  Only the maximal greedy phrase can
be followed by `,`, so no backtracking loop is required. -/
def matchCCAt (s : List Char) :
    Option ((List Char × List Char) × List Char) :=
  match phraseGreedy s with
  | none => none
  | some ((p1, r1), _) =>
    match r1 with
    | ',' :: r2 =>
      let r3 := r2.dropWhile isSpaceC
      match phraseGreedy r3 with
      | none => none
      | some ((p2, r4), _) => some ((p1, p2), r4)
    | _ => none

/-- Match pattern 1 of `extract_location_entities`,
`([A-Z][a-z]+(?:\s+[A-Z][a-z]+)*)\s+in\s+([A-Z][a-z]+(?:\s+[A-Z][a-z]+)*)`,
at the head of `s`.  As above, only the maximal phrase can be followed by
`\s+in`, because every shorter stop is followed by whitespace and an
uppercase word. -/
def matchCICAt (s : List Char) :
    Option ((List Char × List Char) × List Char) :=
  match phraseGreedy s with
  | none => none
  | some ((p1, r1), _) =>
    let sp := r1.takeWhile isSpaceC
    if sp = [] then none
    else
      match r1.dropWhile isSpaceC with
      | 'i' :: 'n' :: r2 =>
        let sp2 := r2.takeWhile isSpaceC
        if sp2 = [] then none
        else
          match phraseGreedy (r2.dropWhile isSpaceC) with
          | none => none
          | some ((p2, r3), _) => some ((p1, p2), r3)
      | _ => none

/-- Match `\b([A-Z][a-z]+(?:\s+[A-Z][a-z]+)*)\b` (pattern 2 of
`extract_location_entities` and pattern 0 of `extract_place_names`) at the
head of `s`, given whether the previous character is a word character.  If
the trailing boundary fails after the maximal phrase, dropping one iteration
always restores it (the dropped iteration began with whitespace); with no
iteration to drop the match fails.  Returns the capture, the last consumed
character, and the rest. -/
def matchCapAt (prevWord : Bool) (s : List Char) :
    Option (List Char × Option Char × List Char) :=
  if prevWord then none
  else
    match phraseGreedy s with
    | none => none
    | some ((p, r), prevStop) =>
      if boundaryOk r then some (p, p.getLast?, r)
      else
        match prevStop with
        | some (p2, r2) => some (p2, p2.getLast?, r2)
        | none => none

/-- Match pattern 1 of `extract_place_names`,
`\b([A-Z][a-z]+(?:\s+[A-Z][a-z]+)*),\s*([A-Z][a-z]+)\b`, at the head of
`s`. -/
def matchPlaceBAt (prevWord : Bool) (s : List Char) :
    Option ((List Char × List Char) × Option Char × List Char) :=
  if prevWord then none
  else
    match phraseGreedy s with
    | none => none
    | some ((p1, r1), _) =>
      match r1 with
      | ',' :: r2 =>
        let r3 := r2.dropWhile isSpaceC
        match word1 r3 with
        | none => none
        | some (w, r4) =>
          if boundaryOk r4 then some ((p1, w), w.getLast?, r4) else none
      | _ => none

/-- Scan loop of `re.findall` for patterns with a leading `\b`: like
`findallAux` but threading whether the previous character is a word
character. -/
def findallBAux (m : Bool → List Char → Option (G × Option Char × List Char)) :
    ℕ → Bool → List Char → List G
  | 0, _, _ => []
  | _ + 1, _, [] => []
  | fuel + 1, pw, c :: t =>
    match m pw (c :: t) with
    | some (g, pc, r) =>
      g :: findallBAux m fuel ((pc.map isWordC).getD false) r
    | none => findallBAux m fuel (isWordC c) t

/-! ## Python `str` helpers -/

/-- Python `str.strip()` (ASCII whitespace). -/
def pyStrip (s : String) : String :=
  String.mk (((s.data.dropWhile isSpaceC).reverse.dropWhile isSpaceC).reverse)

/-- Python `str.lower()` (ASCII). -/
def pyLower (s : String) : String := String.mk (s.data.map Char.toLower)

/-- Python `str.startswith(p)`. -/
def pyStartsWith (s p : String) : Bool := p.data.isPrefixOf s.data

/-- Python substring test `needle in hay`. -/
def pyInStr (needle : String) (hay : List Char) : Bool :=
  match hay with
  | [] => needle.data.isEmpty
  | _ :: t => needle.data.isPrefixOf hay || pyInStr needle t

/-! ## Data model -/

/-- The `GeolocationResult` dataclass of the source, with the same defaults
(`geocoding_attempts` defaults to the empty list via `__post_init__`). -/
structure GeolocationResult where
  lat : Option ℚ := none
  lon : Option ℚ := none
  country_code : Option String := none
  confidence : ℚ := 0
  source : String := "none"
  place_name : Option String := none
  geocoding_attempts : List String := []
deriving DecidableEq, Repr

/-- An input message record; `text`/`channel` are `Option` because the
source reads them with `message.get(..., '')`. -/
structure Message where
  text : Option String := none
  channel : Option String := none
deriving DecidableEq, Repr

/-- The dictionary returned by a successful `MapboxGeocoder.geocode` call. -/
structure GeoHit where
  lat : ℚ
  lon : ℚ
  place_name : String
  relevance : ℚ
  ty : String
deriving DecidableEq, Repr

/-- A candidate dictionary built by `extract_location_entities`. -/
structure LocEntity where
  ty : String
  city : String
  country : Option String
  query : String
  confidence : ℚ
deriving DecidableEq, Repr

/-! ## `extract_location_entities` -/

/-- Candidate for a `City, Country` match (confidence 0.8). -/
def mkCityCountry (m : List Char × List Char) : LocEntity :=
  let city := pyStrip (String.mk m.1)
  let country := pyStrip (String.mk m.2)
  { ty := "city_country", city := city, country := some country,
    query := city ++ ", " ++ country, confidence := 8 / 10 }

/-- Candidate for a `City in Country` match (confidence 0.7). -/
def mkCityInCountry (m : List Char × List Char) : LocEntity :=
  let city := pyStrip (String.mk m.1)
  let country := pyStrip (String.mk m.2)
  { ty := "city_in_country", city := city, country := some country,
    query := city ++ ", " ++ country, confidence := 7 / 10 }

/-- The stop-list filter and candidate builder of the standalone-city
pattern (confidence 0.4). -/
def mkCityOnly (city : String) : Option LocEntity :=
  if city.length > 2 ∧
      pyLower city ∉ ["the", "and", "for", "with", "from", "this", "that"] then
    some { ty := "city_only", city := pyStrip city, country := none,
           query := pyStrip city, confidence := 4 / 10 }
  else none

/-- `LLMGeolocator.extract_location_entities(text)`: all three pattern
classes are evaluated, in source order, and their candidates concatenated. -/
def extract_location_entities (text : String) : List LocEntity :=
  let s := text.data
  ((findallAux matchCCAt s.length s).map mkCityCountry ++
    (findallAux matchCICAt s.length s).map mkCityInCountry) ++
    ((findallBAux matchCapAt s.length false s).map
      (fun p => String.mk p)).filterMap mkCityOnly

/-! ## `extract_place_names` -/

/-- `extract_place_names(text)`: capitalized-phrase matches, then
`City, Country` matches joined with `", "`, deduplicated.  Python's
`list(set(...))` iteration order is unspecified; it is modelled by
`List.dedup`. -/
def extract_place_names (text : String) : List String :=
  let s := text.data
  ((findallBAux matchCapAt s.length false s).map (fun p => String.mk p) ++
    (findallBAux matchPlaceBAt s.length false s).map
      (fun m => String.mk m.1 ++ ", " ++ String.mk m.2)).dedup

/-! ## Flag and centroid helpers -/

/-- `extract_flag_countries(text)`: country codes of every flag symbol of the
mapping (in mapping order) occurring in the text as a substring. -/
def extract_flag_countries (flags : List (String × String)) (text : String) :
    List String :=
  (flags.filter (fun p => pyInStr p.1 text.data)).map (fun p => p.2)

/-- `get_country_centroid(country_code)` over the `COUNTRY_CENTROIDS`
mapping. -/
def get_country_centroid (cents : List (String × ℚ × ℚ)) (code : String) :
    Option (ℚ × ℚ) :=
  cents.lookup code

/-! ## `geocode_locations` and best-result selection -/

/-- One iteration of the `geocode_locations` loop: the per-candidate
`GeolocationResult`.  A successful geocode scales the candidate confidence by
the match relevance; a failed one yields a zero-confidence result; both log
their attempts. -/
def geocodeOne (g : String → Option GeoHit) (loc : LocEntity) :
    GeolocationResult :=
  match g loc.query with
  | some hit =>
    { lat := some hit.lat, lon := some hit.lon,
      place_name := some hit.place_name,
      confidence := loc.confidence * hit.relevance,
      source := "llm_geocoding_" ++ loc.ty,
      geocoding_attempts :=
        ["LLM extracted: " ++ loc.query,
          "Geocoded successfully: " ++ hit.place_name] }
  | none =>
    { confidence := 0,
      geocoding_attempts := ["LLM extracted: " ++ loc.query,
        "Geocoding failed"] }

/-- `LLMGeolocator.geocode_locations(locations)`: one result per candidate,
in order. -/
def geocode_locations (g : String → Option GeoHit)
    (locs : List LocEntity) : List GeolocationResult :=
  locs.map (geocodeOne g)

/-- Python `max(results, key=...)` over a nonempty list (head and tail):
strictly greater replaces, so the first element attaining the maximum wins. -/
def pyMax (key : α → ℚ) : α → List α → α
  | best, [] => best
  | best, x :: xs => pyMax key (if key x > key best then x else best) xs

/-! ## `calculate_confidence_score` -/

/-- `calculate_confidence_score(result, message)` (the `message` argument is
unused in the source as well). -/
def calculate_confidence_score (result : GeolocationResult)
    (message : Message) : ℚ :=
  let b0 := result.confidence
  let b1 := if pyStartsWith result.source "coordinates" then
    max b0 (95 / 100) else b0
  let b2 := if pyStartsWith result.source "flag" then max b1 (85 / 100) else b1
  let b3 := if pyStartsWith result.source "llm_geocoding" then
    max b2 (7 / 10) else b2
  let b4 := if pyStartsWith result.source "country_centroid" then
    min b3 (5 / 10) else b3
  let b5 := if pyStartsWith result.source "channel_fallback" then
    min b4 (3 / 10) else b4
  min b5 1

/-! ## `process_message`: the five pipeline stages -/

/-- Step 1 of `process_message`: exact coordinates (fixed confidence 0.95).
The attempt-log entry abstracts the numeric formatting of Python's
`f"Found coordinates: {coords}"` by printing `num/den`. -/
def step1 (text : String) : Option GeolocationResult :=
  match extract_coordinates text with
  | some (la, lo) =>
    some { lat := some la, lon := some lo, confidence := 95 / 100,
           source := "coordinates_regex",
           geocoding_attempts :=
             ["Found coordinates: (" ++ toString la.num ++ "/" ++
               toString la.den ++ ", " ++ toString lo.num ++ "/" ++
               toString lo.den ++ ")"] }
  | none => none

/-- Step 2 of `process_message`: first flag country (by mapping order); the
stage yields nothing when that country has no registered centroid. -/
def step2 (flags : List (String × String)) (cents : List (String × ℚ × ℚ))
    (text : String) : Option GeolocationResult :=
  match extract_flag_countries flags text with
  | [] => none
  | code :: _ =>
    match get_country_centroid cents code with
    | some (la, lo) =>
      some { lat := some la, lon := some lo, country_code := some code,
             confidence := 85 / 100, source := "flag_emoji",
             geocoding_attempts := ["Found flag: " ++ code] }
    | none => none

/-- Step 3 of `process_message`: entity extraction and geocoding, only for
texts longer than 10 characters; the best result is accepted only above the
0.3 threshold, and its confidence is then re-scored.  (The `[]` inner case
is unreachable: `geocode_locations` preserves the list length.) -/
def step3 (g : String → Option GeoHit) (msg : Message) (text : String) :
    Option GeolocationResult :=
  if text.length > 10 then
    match extract_location_entities text with
    | [] => none
    | c :: cs =>
      match geocode_locations g (c :: cs) with
      | [] => none
      | r :: rs =>
        if (pyMax (fun x => x.confidence) r rs).confidence > 3 / 10 then
          some { pyMax (fun x => x.confidence) r rs with
                 confidence := calculate_confidence_score
                   (pyMax (fun x => x.confidence) r rs) msg }
        else none
  else none

/-- Step 4 of `process_message`: geocode the first extracted place name
(fixed confidence 0.4). -/
def step4 (g : String → Option GeoHit) (text : String) :
    Option GeolocationResult :=
  match extract_place_names text with
  | [] => none
  | p :: _ =>
    match g p with
    | some hit =>
      some { lat := some hit.lat, lon := some hit.lon,
             place_name := some hit.place_name, confidence := 4 / 10,
             source := "place_name_geocoding",
             geocoding_attempts := ["Geocoded place: " ++ p] }
    | none => none

/-- The hard-coded `channel_country_map` of `process_message`. -/
def channel_country_map : List (String × String) :=
  [("militarysummary", "UKR"), ("ClashReport", "UKR"),
   ("ukraine_world", "UKR"), ("russia_news", "RUS"),
   ("middle_east_news", "ISR")]

/-- Step 5 of `process_message`: channel fallback (fixed confidence 0.2). -/
def step5 (cents : List (String × ℚ × ℚ)) (channel : String) :
    Option GeolocationResult :=
  match channel_country_map.lookup channel with
  | some code =>
    match get_country_centroid cents code with
    | some (la, lo) =>
      some { lat := some la, lon := some lo, country_code := some code,
             confidence := 2 / 10, source := "channel_fallback",
             geocoding_attempts := ["Channel fallback: " ++ code] }
    | none => none
  | none => none

/-- The terminal no-location result of `process_message`. -/
def terminalResult : GeolocationResult :=
  { confidence := 0, source := "none",
    geocoding_attempts := ["No geolocation found"] }

/-- `process_message(message)` instrumented with the number of stages
(1–5) whose code was reached before the pipeline returned. -/
def process_message_t (flags : List (String × String))
    (cents : List (String × ℚ × ℚ)) (g : String → Option GeoHit)
    (msg : Message) : GeolocationResult × ℕ :=
  match step1 (msg.text.getD "") with
  | some r => (r, 1)
  | none =>
    match step2 flags cents (msg.text.getD "") with
    | some r => (r, 2)
    | none =>
      match step3 g msg (msg.text.getD "") with
      | some r => (r, 3)
      | none =>
        match step4 g (msg.text.getD "") with
        | some r => (r, 4)
        | none =>
          match step5 cents (msg.channel.getD "") with
          | some r => (r, 5)
          | none => (terminalResult, 5)

/-- `process_message(message)`: the returned `GeolocationResult`. -/
def process_message (flags : List (String × String))
    (cents : List (String × ℚ × ℚ)) (g : String → Option GeoHit)
    (msg : Message) : GeolocationResult :=
  (process_message_t flags cents g msg).1

/-! ## `MapboxGeocoder.geocode`: control flow around the HTTP call -/

/-- One feature of a Mapbox response body; optional fields reflect the
`.get(..., default)` reads of the source. -/
structure MapboxFeature where
  lat : ℚ
  lon : ℚ
  place_name : Option String
  relevance : Option ℚ
  place_type : List String
deriving DecidableEq, Repr

/-- Outcome of the HTTP request of `MapboxGeocoder.geocode`: an exception
anywhere in the `try` block, or a parsed body with its feature list. -/
inductive MapboxResponse where
  | failure
  | success (features : List MapboxFeature)
deriving DecidableEq, Repr

/-- `MapboxGeocoder.geocode(query)` given the response of the HTTP call:
returns the parsed hit (or `None`) together with the number of rate-limit
sleeps (`time.sleep(self.rate_limit_delay)`) executed on that path.  The
source returns a successful match immediately, before reaching the sleep
statement. -/
def mapboxGeocode (query : String) (resp : MapboxResponse) :
    Option GeoHit × ℕ :=
  match resp with
  | .failure => (none, 1)
  | .success [] => (none, 1)
  | .success (f :: _) =>
    (some { lat := f.lat, lon := f.lon,
            place_name := f.place_name.getD query,
            relevance := f.relevance.getD 0,
            ty := f.place_type.headD "unknown" }, 0)

/-! ## `process_file` -/

/-- One output record of `process_file` (the `processed_at` timestamp and
the fixed `processing_version` tag are not modelled). -/
structure OutputRecord where
  message : Message
  geolocation : GeolocationResult
deriving DecidableEq, Repr

/-- `process_file`: parse each line with the external JSON decoder
(`parse`), skip lines that fail to decode (`json.JSONDecodeError`), process
and emit the rest; returns the written records and `processed_count`. -/
def process_file (parse : String → Option Message)
    (flags : List (String × String)) (cents : List (String × ℚ × ℚ))
    (g : String → Option GeoHit) : List String → List OutputRecord × ℕ
  | [] => ([], 0)
  | line :: rest =>
    match parse (pyStrip line) with
    | none => process_file parse flags cents g rest
    | some m =>
      let out : OutputRecord :=
        { message := m, geolocation := process_message flags cents g m }
      let pr := process_file parse flags cents g rest
      (out :: pr.1, pr.2 + 1)

/-- The tail of the pipeline after the entity-extraction stage: place-name
geocoding, then channel fallback, then the terminal result.  Used to state
that the entity stage falls through. -/
def stepsAfterEntity (flags : List (String × String))
    (cents : List (String × ℚ × ℚ)) (g : String → Option GeoHit)
    (msg : Message) : GeolocationResult :=
  match step4 g (msg.text.getD "") with
  | some r => r
  | none =>
    match step5 cents (msg.channel.getD "") with
    | some r => r
    | none => terminalResult

/-! ## Concrete instances used by witnesses -/

/-- A concrete geocoder oracle used by witnesses: every query resolves to a
fixed hit with relevance 0.9. -/
def wG : String → Option GeoHit :=
  fun _ => some { lat := 1 / 2, lon := 3 / 2, place_name := "Kyiv",
                  relevance := 9 / 10, ty := "place" }

/-- The concrete message used by the entity-stage witness (text longer than
10 characters, exactly one extracted candidate). -/
def wMsg : Message := { text := some "Kyiv near aaa", channel := some "" }

/-- The candidate `wG` extracts from `wMsg`. -/
def wCand : LocEntity :=
  { ty := "city_only", city := "Kyiv", country := none, query := "Kyiv",
    confidence := 4 / 10 }

/-- The per-candidate result `geocode_locations wG [wCand]` produces. -/
def wRes : GeolocationResult :=
  { lat := some (1 / 2), lon := some (3 / 2), confidence := 9 / 25,
    source := "llm_geocoding_city_only", place_name := some "Kyiv",
    geocoding_attempts :=
      ["LLM extracted: Kyiv", "Geocoded successfully: Kyiv"] }

/-! ## Helper lemmas: `pyMax` (Python `max` with `key`) -/

/-- The key of the running best never decreases along the fold. -/
theorem le_key_pyMax (key : α → ℚ) (l : List α) :
    ∀ a, key a ≤ key (pyMax key a l) := by
  induction l with
  | nil => intro a; exact le_refl _
  | cons x xs ih =>
    intro a
    simp only [pyMax]
    refine le_trans ?_ (ih (if key x > key a then x else a))
    split
    · next h => exact le_of_lt h
    · exact le_refl _

/-- `pyMax` returns an element of the (nonempty) list. -/
theorem pyMax_mem (key : α → ℚ) (l : List α) :
    ∀ a, pyMax key a l ∈ a :: l := by
  induction l with
  | nil => intro a; simp [pyMax]
  | cons x xs ih =>
    intro a
    simp only [pyMax]
    have h := ih (if key x > key a then x else a)
    rcases List.mem_cons.mp h with h | h
    · rw [h]
      split
      · exact List.mem_cons_of_mem _ (List.mem_cons_self _ _)
      · exact List.mem_cons_self _ _
    · exact List.mem_cons_of_mem _ (List.mem_cons_of_mem _ h)

/-- `pyMax` attains the maximum key. -/
theorem pyMax_le (key : α → ℚ) (l : List α) :
    ∀ a, ∀ x ∈ a :: l, key x ≤ key (pyMax key a l) := by
  induction l with
  | nil =>
    intro a x hx
    rcases List.mem_cons.mp hx with rfl | hx
    · simp [pyMax]
    · cases hx
  | cons y ys ih =>
    intro a x hx
    simp only [pyMax]
    rcases List.mem_cons.mp hx with rfl | hx
    · refine le_trans ?_ (le_key_pyMax key ys (if key y > key x then y else x))
      split
      · next h => exact le_of_lt h
      · exact le_refl _
    · rcases List.mem_cons.mp hx with rfl | hx
      · refine le_trans ?_ (le_key_pyMax key ys (if key x > key a then x else a))
        split
        · exact le_refl _
        · next h => exact le_of_not_lt h
      · exact ih _ x (List.mem_cons_of_mem _ hx)

/-- First-seen tie-breaking: the list splits as `l1 ++ pyMax :: l2` with every
element of `l1` of strictly smaller key. -/
theorem pyMax_first (key : α → ℚ) (l : List α) :
    ∀ a, ∃ l1 l2, a :: l = l1 ++ pyMax key a l :: l2 ∧
      ∀ y ∈ l1, key y < key (pyMax key a l) := by
  induction l with
  | nil => intro a; exact ⟨[], [], rfl, by simp⟩
  | cons x xs ih =>
    intro a
    simp only [pyMax]
    by_cases h : key x > key a
    · rw [if_pos h]
      obtain ⟨l1, l2, heq, hlt⟩ := ih x
      refine ⟨a :: l1, l2, ?_, ?_⟩
      · rw [List.cons_append, ← heq]
      · intro y hy
        rcases List.mem_cons.mp hy with rfl | hy
        · exact lt_of_lt_of_le h (le_key_pyMax key xs x)
        · exact hlt y hy
    · rw [if_neg h]
      obtain ⟨l1, l2, heq, hlt⟩ := ih a
      cases l1 with
      | nil =>
        refine ⟨[], x :: xs, ?_, by simp⟩
        have : a = pyMax key a xs := by
          simpa using congrArg (fun l => l.headD a) heq
        rw [← this]
        rfl
      | cons b l1t =>
        have hab : a = b ∧ xs = l1t ++ pyMax key a xs :: l2 := by
          constructor
          · simpa using congrArg (fun l => l.headD a) heq
          · simpa using congrArg List.tail heq
        refine ⟨a :: x :: l1t, l2, ?_, ?_⟩
        · rw [List.cons_append, List.cons_append, ← hab.2]
        · intro y hy
          have hamem : key a < key (pyMax key a xs) := by
            have := hlt b (List.mem_cons_self _ _)
            rwa [← hab.1] at this
          rcases List.mem_cons.mp hy with rfl | hy
          · exact hamem
          · rcases List.mem_cons.mp hy with rfl | hy
            · exact lt_of_le_of_lt (le_of_not_lt h) hamem
            · exact hlt y (List.mem_cons_of_mem _ hy)

/-! ## Helper lemmas: structure of per-candidate geocoding results -/

/-- Every element of `geocode_locations` is either a failed-geocode result
(zero confidence, default `none` source, no coordinates) or a successful one
for some candidate of the input list. -/
theorem geocode_locations_mem {g : String → Option GeoHit}
    {locs : List LocEntity} {x : GeolocationResult}
    (hx : x ∈ geocode_locations g locs) :
    (x.confidence = 0 ∧ x.source = "none" ∧ x.lat = none ∧ x.lon = none ∧
      x.geocoding_attempts ≠ []) ∨
    (∃ loc ∈ locs, ∃ hit, g loc.query = some hit ∧
      x.confidence = loc.confidence * hit.relevance ∧
      x.source = "llm_geocoding_" ++ loc.ty ∧
      x.lat = some hit.lat ∧ x.lon = some hit.lon ∧
      x.geocoding_attempts ≠ []) := by
  obtain ⟨loc, hloc, rfl⟩ := List.mem_map.mp hx
  cases hq : g loc.query with
  | none => left; simp [geocodeOne, hq]
  | some hit =>
    right
    refine ⟨loc, hloc, hit, hq, ?_, ?_, ?_, ?_, ?_⟩ <;> simp [geocodeOne, hq]

/-- Every candidate produced by `extract_location_entities` carries one of
the three literal type tags of the source. -/
theorem entity_ty {text : String} {loc : LocEntity}
    (h : loc ∈ extract_location_entities text) :
    loc.ty = "city_country" ∨ loc.ty = "city_in_country" ∨
      loc.ty = "city_only" := by
  simp only [extract_location_entities, List.mem_append, List.mem_map,
    List.mem_filterMap] at h
  rcases h with (⟨a, _, rfl⟩ | ⟨a, _, rfl⟩) | ⟨a, ⟨b, _, rfl⟩, ha⟩
  · left; rfl
  · right; left; rfl
  · right; right
    unfold mkCityOnly at ha
    split at ha
    · cases ha; rfl
    · cases ha

/-! ## Helper lemmas: `calculate_confidence_score` on LLM-geocoding results -/

/-- On any result whose source is `llm_geocoding_` followed by anything,
the scorer reduces to `min (max confidence 0.7) 1`: of the five prefix
tests, only the `llm_geocoding` one fires. -/
theorem calc_llm_eval (r : GeolocationResult) (m : Message) (t : String)
    (h : r.source = "llm_geocoding_" ++ t) :
    calculate_confidence_score r m = min (max r.confidence (7 / 10)) 1 := by
  have hdata : ("llm_geocoding_" ++ t).data =
      'l' :: 'l' :: 'm' :: '_' :: 'g' :: 'e' :: 'o' :: 'c' :: 'o' :: 'd' ::
        'i' :: 'n' :: 'g' :: '_' :: t.data := by
    cases t; rfl
  simp [calculate_confidence_score, h, pyStartsWith, hdata, List.isPrefixOf]

/-! ## Helper lemmas: the five pipeline stages -/

/-- Shape of an accepted step-1 result. -/
theorem step1_some {text : String} {r : GeolocationResult}
    (h : step1 text = some r) :
    r.source = "coordinates_regex" ∧ r.confidence = 95 / 100 ∧
      r.lat.isSome ∧ r.lon.isSome ∧ r.geocoding_attempts ≠ [] := by
  unfold step1 at h
  split at h
  · next la lo heq =>
    cases h
    exact ⟨rfl, rfl, rfl, rfl, by simp⟩
  · cases h

/-- Shape of an accepted step-2 result. -/
theorem step2_some {flags : List (String × String)}
    {cents : List (String × ℚ × ℚ)} {text : String} {r : GeolocationResult}
    (h : step2 flags cents text = some r) :
    r.source = "flag_emoji" ∧ r.confidence = 85 / 100 ∧
      r.lat.isSome ∧ r.lon.isSome ∧ r.geocoding_attempts ≠ [] := by
  unfold step2 at h
  split at h
  · cases h
  · split at h
    · next heq => cases h; exact ⟨rfl, rfl, rfl, rfl, by simp⟩
    · cases h

/-- Shape of an accepted step-3 result: an LLM-geocoding source tag,
confidence in `[0.7, 1]`, both coordinates set, nonempty attempt log. -/
theorem step3_some {g : String → Option GeoHit} {msg : Message}
    {text : String} {r : GeolocationResult}
    (h : step3 g msg text = some r) :
    (r.source = "llm_geocoding_city_country" ∨
      r.source = "llm_geocoding_city_in_country" ∨
      r.source = "llm_geocoding_city_only") ∧
    (7 / 10 : ℚ) ≤ r.confidence ∧ r.confidence ≤ 1 ∧
      r.lat.isSome ∧ r.lon.isSome ∧ r.geocoding_attempts ≠ [] := by
  unfold step3 at h
  split at h
  · split at h
    · cases h
    · next c cs heq =>
      split at h
      · cases h
      · next r0 rs hgeq =>
        split at h
        · next hconf =>
          cases h
          set best := pyMax (fun x => x.confidence) r0 rs with hbest
          have hmem : best ∈ geocode_locations g (c :: cs) := by
            rw [hgeq]; exact pyMax_mem _ _ _
          rcases geocode_locations_mem hmem with
            ⟨hc0, _, _, _, _⟩ | ⟨loc, hloc, hit, _, hcconf, hsrc, hlat, hlon, hatt⟩
          · rw [hc0] at hconf; norm_num at hconf
          · have hty : best.source = "llm_geocoding_city_country" ∨
                best.source = "llm_geocoding_city_in_country" ∨
                best.source = "llm_geocoding_city_only" := by
              rw [← heq] at hloc
              rcases entity_ty hloc with h1 | h1 | h1 <;>
                rw [hsrc, h1] <;> simp
            have hcalc := calc_llm_eval best msg loc.ty hsrc
            refine ⟨hty, ?_, ?_, ?_, ?_, ?_⟩
            · show (7 / 10 : ℚ) ≤ calculate_confidence_score best msg
              rw [hcalc]
              exact le_min (le_max_right _ _) (by norm_num)
            · show calculate_confidence_score best msg ≤ 1
              rw [hcalc]; exact min_le_right _ _
            · show best.lat.isSome; rw [hlat]; rfl
            · show best.lon.isSome; rw [hlon]; rfl
            · show best.geocoding_attempts ≠ []; exact hatt
        · cases h
  · cases h

/-- Shape of an accepted step-4 result. -/
theorem step4_some {g : String → Option GeoHit} {text : String}
    {r : GeolocationResult} (h : step4 g text = some r) :
    r.source = "place_name_geocoding" ∧ r.confidence = 4 / 10 ∧
      r.lat.isSome ∧ r.lon.isSome ∧ r.geocoding_attempts ≠ [] := by
  unfold step4 at h
  split at h
  · cases h
  · split at h
    · cases h; exact ⟨rfl, rfl, rfl, rfl, by simp⟩
    · cases h

/-- Shape of an accepted step-5 result. -/
theorem step5_some {cents : List (String × ℚ × ℚ)} {channel : String}
    {r : GeolocationResult} (h : step5 cents channel = some r) :
    r.source = "channel_fallback" ∧ r.confidence = 2 / 10 ∧
      r.lat.isSome ∧ r.lon.isSome ∧ r.geocoding_attempts ≠ [] := by
  unfold step5 at h
  split at h
  · split at h
    · next heq => cases h; exact ⟨rfl, rfl, rfl, rfl, by simp⟩
    · cases h
  · cases h

/-- Case analysis of the pipeline: the returned result is the value of the
first accepting stage (all earlier ones returning `none`), or the terminal
result. -/
theorem process_message_spec (flags : List (String × String))
    (cents : List (String × ℚ × ℚ)) (g : String → Option GeoHit)
    (msg : Message) :
    step1 (msg.text.getD "") = some (process_message flags cents g msg) ∨
    (step1 (msg.text.getD "") = none ∧
      step2 flags cents (msg.text.getD "") =
        some (process_message flags cents g msg)) ∨
    (step1 (msg.text.getD "") = none ∧
      step2 flags cents (msg.text.getD "") = none ∧
      step3 g msg (msg.text.getD "") =
        some (process_message flags cents g msg)) ∨
    (step1 (msg.text.getD "") = none ∧
      step2 flags cents (msg.text.getD "") = none ∧
      step3 g msg (msg.text.getD "") = none ∧
      step4 g (msg.text.getD "") =
        some (process_message flags cents g msg)) ∨
    (step1 (msg.text.getD "") = none ∧
      step2 flags cents (msg.text.getD "") = none ∧
      step3 g msg (msg.text.getD "") = none ∧
      step4 g (msg.text.getD "") = none ∧
      step5 cents (msg.channel.getD "") =
        some (process_message flags cents g msg)) ∨
    (step1 (msg.text.getD "") = none ∧
      step2 flags cents (msg.text.getD "") = none ∧
      step3 g msg (msg.text.getD "") = none ∧
      step4 g (msg.text.getD "") = none ∧
      step5 cents (msg.channel.getD "") = none ∧
      process_message flags cents g msg = terminalResult) := by
  cases h1 : step1 (msg.text.getD "") with
  | some r =>
    left
    rw [show process_message flags cents g msg = r from by
      unfold process_message process_message_t; rw [h1]]
  | none =>
    cases h2 : step2 flags cents (msg.text.getD "") with
    | some r =>
      right; left
      exact ⟨rfl, by
        rw [show process_message flags cents g msg = r from by
          unfold process_message process_message_t; rw [h1, h2]]⟩
    | none =>
      cases h3 : step3 g msg (msg.text.getD "") with
      | some r =>
        right; right; left
        exact ⟨rfl, rfl, by
          rw [show process_message flags cents g msg = r from by
            unfold process_message process_message_t; rw [h1, h2, h3]]⟩
      | none =>
        cases h4 : step4 g (msg.text.getD "") with
        | some r =>
          right; right; right; left
          exact ⟨rfl, rfl, rfl, by
            rw [show process_message flags cents g msg = r from by
              unfold process_message process_message_t; rw [h1, h2, h3, h4]]⟩
        | none =>
          cases h5 : step5 cents (msg.channel.getD "") with
          | some r =>
            right; right; right; right; left
            exact ⟨rfl, rfl, rfl, rfl, by
              rw [show process_message flags cents g msg = r from by
                unfold process_message process_message_t
                rw [h1, h2, h3, h4, h5]]⟩
          | none =>
            right; right; right; right; right
            exact ⟨rfl, rfl, rfl, rfl, rfl, by
              unfold process_message process_message_t
              rw [h1, h2, h3, h4, h5]⟩

/-! ## Claim theorems -/

/-- C6: `extract_coordinates` never returns a coordinate outside
`[-90, 90] × [-180, 180]`: every return site is guarded by the bounds check,
and a failed check falls through to the next notation pattern. -/
theorem c6_coordinate_bounds (text : String) (la lo : ℚ)
    (h : extract_coordinates text = some (la, lo)) :
    -90 ≤ la ∧ la ≤ 90 ∧ -180 ≤ lo ∧ lo ≤ 180 := by
  simp only [extract_coordinates] at h
  split at h
  · next r heq =>
    cases h
    split at heq
    · next la2 lo2 rest hfd =>
      split at heq
      · next hb => cases heq; exact hb
      · cases heq
    · cases heq
  · next heq1 =>
    split at h
    · next r heq =>
      cases h
      split at heq
      · next latg long rest hfd =>
        split at heq
        · next hb => cases Option.some.inj heq; exact hb
        · cases heq
      · cases heq
    · next heq2 =>
      split at h
      · next la2 lo2 rest hfd =>
        split at h
        · next hb => cases h; exact hb
        · cases h
      · cases h

/-- Witness for C6 at a concrete text. -/
theorem c6_coordinate_bounds_witness :
    extract_coordinates "9.5, 19.5" = some (19 / 2, 39 / 2) ∧
      (-90 ≤ (19 / 2 : ℚ) ∧ (19 / 2 : ℚ) ≤ 90 ∧
        -180 ≤ (39 / 2 : ℚ) ∧ (39 / 2 : ℚ) ≤ 180) :=
  ⟨by with_unfolding_all decide,
    c6_coordinate_bounds "9.5, 19.5" (19 / 2) (39 / 2)
      (by with_unfolding_all decide)⟩

/-- C1 counterexample: the text `"99.5, 9.5 1.5, 2.5"` contains a decimal
coordinate pair within bounds — `(1.5, 2.5)`, the second match of the decimal
pattern — yet `extract_coordinates` returns nothing, because only the first
match of the pattern (`(99.5, 9.5)`, out of bounds) is examined before the
pattern is abandoned, and the pipeline result for such a message is the
terminal one, not a `coordinates_regex` result. -/
theorem c1_counterexample :
    findallDec "99.5, 9.5 1.5, 2.5".data =
      [(199 / 2, 19 / 2), (3 / 2, 5 / 2)] ∧
    coordInBounds (3 / 2) (5 / 2) ∧
    ¬ coordInBounds (199 / 2) (19 / 2) ∧
    extract_coordinates "99.5, 9.5 1.5, 2.5" = none ∧
    (process_message [] [] (fun _ => none)
      { text := some "99.5, 9.5 1.5, 2.5", channel := some "" }).source =
      "none" := by
  refine ⟨?_, ?_, ?_, ?_, ?_⟩ <;> with_unfolding_all decide

/-- C1 (amended): when the FIRST decimal-degree match of the text is within
bounds, the extractor returns exactly that pair and the pipeline result
carries it with confidence 0.95 and source `coordinates_regex`. -/
theorem c1_first_decimal_match (text : String) (la lo : ℚ)
    (rest : List (ℚ × ℚ)) (flags : List (String × String))
    (cents : List (String × ℚ × ℚ)) (g : String → Option GeoHit)
    (ch : Option String)
    (hfst : findallDec text.data = (la, lo) :: rest)
    (hb : coordInBounds la lo) :
    extract_coordinates text = some (la, lo) ∧
    (process_message flags cents g { text := some text, channel := ch }).lat =
      some la ∧
    (process_message flags cents g { text := some text, channel := ch }).lon =
      some lo ∧
    (process_message flags cents g
      { text := some text, channel := ch }).confidence = 95 / 100 ∧
    (process_message flags cents g
      { text := some text, channel := ch }).source = "coordinates_regex" := by
  have hex : extract_coordinates text = some (la, lo) := by
    simp only [extract_coordinates, hfst]
    rw [if_pos hb]
  have hmsg : ({ text := some text, channel := ch } : Message).text.getD "" =
      text := rfl
  have h1 : step1 text =
      some { lat := some la, lon := some lo, confidence := 95 / 100,
             source := "coordinates_regex",
             geocoding_attempts :=
               ["Found coordinates: (" ++ toString la.num ++ "/" ++
                 toString la.den ++ ", " ++ toString lo.num ++ "/" ++
                 toString lo.den ++ ")"] } := by
    unfold step1
    rw [hex]
  have hpm : process_message flags cents g
      { text := some text, channel := ch } =
      { lat := some la, lon := some lo, confidence := 95 / 100,
        source := "coordinates_regex",
        geocoding_attempts :=
          ["Found coordinates: (" ++ toString la.num ++ "/" ++
            toString la.den ++ ", " ++ toString lo.num ++ "/" ++
            toString lo.den ++ ")"] } := by
    unfold process_message process_message_t
    rw [hmsg, h1]
  exact ⟨hex, by rw [hpm], by rw [hpm], by rw [hpm], by rw [hpm]⟩

/-- Witness for the amended C1 at a concrete text, reference data and
geocoder. -/
theorem c1_first_decimal_match_witness :
    extract_coordinates "1.5, 2.5" = some (3 / 2, 5 / 2) ∧
    (process_message [] [] (fun _ => none)
      { text := some "1.5, 2.5", channel := some "" }).lat = some (3 / 2) ∧
    (process_message [] [] (fun _ => none)
      { text := some "1.5, 2.5", channel := some "" }).lon = some (5 / 2) ∧
    (process_message [] [] (fun _ => none)
      { text := some "1.5, 2.5", channel := some "" }).confidence =
      95 / 100 ∧
    (process_message [] [] (fun _ => none)
      { text := some "1.5, 2.5", channel := some "" }).source =
      "coordinates_regex" :=
  c1_first_decimal_match "1.5, 2.5" (3 / 2) (5 / 2) [] [] [] (fun _ => none)
    (some "") (by with_unfolding_all decide) (by with_unfolding_all decide)

/-- C2: when the text contains an exact coordinate match and a flag with a
registered centroid, the pipeline returns the coordinate result, never the
flag result: stage 1 returns before stage 2 is reached. -/
theorem c2_stage_priority (flags : List (String × String))
    (cents : List (String × ℚ × ℚ)) (g : String → Option GeoHit)
    (msg : Message) (la lo : ℚ) (code : String)
    (hc : extract_coordinates (msg.text.getD "") = some (la, lo))
    (hflag : code ∈ extract_flag_countries flags (msg.text.getD ""))
    (hcent : (get_country_centroid cents code).isSome) :
    (process_message flags cents g msg).source = "coordinates_regex" ∧
    (process_message flags cents g msg).source ≠ "flag_emoji" ∧
    (process_message flags cents g msg).lat = some la ∧
    (process_message flags cents g msg).lon = some lo ∧
    (process_message flags cents g msg).confidence = 95 / 100 := by
  have h1 : step1 (msg.text.getD "") =
      some { lat := some la, lon := some lo, confidence := 95 / 100,
             source := "coordinates_regex",
             geocoding_attempts :=
               ["Found coordinates: (" ++ toString la.num ++ "/" ++
                 toString la.den ++ ", " ++ toString lo.num ++ "/" ++
                 toString lo.den ++ ")"] } := by
    unfold step1
    rw [hc]
  have hpm : process_message flags cents g msg =
      { lat := some la, lon := some lo, confidence := 95 / 100,
        source := "coordinates_regex",
        geocoding_attempts :=
          ["Found coordinates: (" ++ toString la.num ++ "/" ++
            toString la.den ++ ", " ++ toString lo.num ++ "/" ++
            toString lo.den ++ ")"] } := by
    unfold process_message process_message_t
    rw [h1]
  refine ⟨by rw [hpm], ?_, by rw [hpm], by rw [hpm], by rw [hpm]⟩
  rw [hpm]
  exact (by decide : "coordinates_regex" ≠ ("flag_emoji" : String))

/-- Witness for C2: a text with both a coordinate pair and a flag symbol
whose country has a centroid. -/
theorem c2_stage_priority_witness :
    (process_message [("F", "UKR")] [("UKR", (49, 32))] (fun _ => none)
      { text := some "1.5, 2.5 F", channel := some "" }).source =
      "coordinates_regex" ∧
    (process_message [("F", "UKR")] [("UKR", (49, 32))] (fun _ => none)
      { text := some "1.5, 2.5 F", channel := some "" }).source ≠
      "flag_emoji" ∧
    (process_message [("F", "UKR")] [("UKR", (49, 32))] (fun _ => none)
      { text := some "1.5, 2.5 F", channel := some "" }).lat =
      some (3 / 2) ∧
    (process_message [("F", "UKR")] [("UKR", (49, 32))] (fun _ => none)
      { text := some "1.5, 2.5 F", channel := some "" }).lon =
      some (5 / 2) ∧
    (process_message [("F", "UKR")] [("UKR", (49, 32))] (fun _ => none)
      { text := some "1.5, 2.5 F", channel := some "" }).confidence =
      95 / 100 :=
  c2_stage_priority [("F", "UKR")] [("UKR", (49, 32))] (fun _ => none)
    { text := some "1.5, 2.5 F", channel := some "" } (3 / 2) (5 / 2) "UKR"
    (by with_unfolding_all decide) (by with_unfolding_all decide)
    (by with_unfolding_all decide)

/-- C4 (code bug): the rate-limit sleep is NOT executed on the successful
path of `MapboxGeocoder.geocode` — the parsed feature is returned before the
`time.sleep` statement is reached — while the no-match and exception paths do
sleep.  This is evaluated here at the three possible call outcomes. -/
theorem c4_rate_limit_sleep :
    (mapboxGeocode "Kyiv" (.success
      [{ lat := 1 / 2, lon := 3 / 2, place_name := some "Kyiv",
         relevance := some (9 / 10), place_type := ["place"] }])).2 = 0 ∧
    (mapboxGeocode "Kyiv" .failure).2 = 1 ∧
    (mapboxGeocode "Kyiv" (.success [])).2 = 1 :=
  ⟨rfl, rfl, rfl⟩

/-- C5 counterexample: for the empty message with an unknown channel, all
five stages are tried but the attempts log of the returned result has a
single entry (the terminal one), so a tried stage appended nothing. -/
theorem c5_counterexample :
    (process_message_t [] [] (fun _ => none)
      { text := some "", channel := some "" }).2 = 5 ∧
    (process_message_t [] [] (fun _ => none)
      { text := some "", channel := some "" }).1.geocoding_attempts.length =
      1 ∧
    ¬ ((process_message_t [] [] (fun _ => none)
        { text := some "", channel := some "" }).2 ≤
      (process_message_t [] [] (fun _ => none)
        { text := some "", channel := some "" }).1.geocoding_attempts.length)
    := by
  refine ⟨?_, ?_, ?_⟩ <;> with_unfolding_all decide

/-- C5 (amended): a tried stage that produces nothing appends no diagnostic;
only the stage that produces the returned result contributes attempt
strings.  What does hold of the source is the spec's companion sentence: the
attempts log of every processed message is nonempty. -/
theorem c5_attempts_nonempty (flags : List (String × String))
    (cents : List (String × ℚ × ℚ)) (g : String → Option GeoHit)
    (msg : Message) :
    (process_message flags cents g msg).geocoding_attempts ≠ [] := by
  rcases process_message_spec flags cents g msg with
    h | ⟨_, h⟩ | ⟨_, _, h⟩ | ⟨_, _, _, h⟩ | ⟨_, _, _, _, h⟩ |
    ⟨_, _, _, _, _, h⟩
  · exact (step1_some h).2.2.2.2
  · exact (step2_some h).2.2.2.2
  · exact (step3_some h).2.2.2.2.2
  · exact (step4_some h).2.2.2.2
  · exact (step5_some h).2.2.2.2
  · rw [h]; simp [terminalResult]

/-- C7: the returned confidence is zero exactly for the terminal
`"none"`-source result; every accepted stage yields confidence at least
0.2. -/
theorem c7_confidence_zero_iff_none (flags : List (String × String))
    (cents : List (String × ℚ × ℚ)) (g : String → Option GeoHit)
    (msg : Message) :
    (process_message flags cents g msg).confidence = 0 ↔
      (process_message flags cents g msg).source = "none" := by
  rcases process_message_spec flags cents g msg with
    h | ⟨_, h⟩ | ⟨_, _, h⟩ | ⟨_, _, _, h⟩ | ⟨_, _, _, _, h⟩ |
    ⟨_, _, _, _, _, h⟩
  · obtain ⟨hs, hc, -⟩ := step1_some h
    rw [hs, hc]
    exact iff_of_false (by norm_num) (by decide)
  · obtain ⟨hs, hc, -⟩ := step2_some h
    rw [hs, hc]
    exact iff_of_false (by norm_num) (by decide)
  · obtain ⟨hty, hge, -⟩ := step3_some h
    constructor
    · intro hc
      rw [hc] at hge
      norm_num at hge
    · intro hs
      rcases hty with h1 | h1 | h1 <;> rw [h1] at hs <;>
        exact absurd hs (by decide)
  · obtain ⟨hs, hc, -⟩ := step4_some h
    rw [hs, hc]
    exact iff_of_false (by norm_num) (by decide)
  · obtain ⟨hs, hc, -⟩ := step5_some h
    rw [hs, hc]
    exact iff_of_false (by norm_num) (by decide)
  · rw [h]
    exact iff_of_true rfl rfl

/-- C9: the returned source differs from `"none"` exactly when both
coordinates are present: every accepted stage sets `lat` and `lon`, and the
terminal result leaves both unset. -/
theorem c9_source_iff_coords (flags : List (String × String))
    (cents : List (String × ℚ × ℚ)) (g : String → Option GeoHit)
    (msg : Message) :
    (process_message flags cents g msg).source ≠ "none" ↔
      ((process_message flags cents g msg).lat.isSome ∧
        (process_message flags cents g msg).lon.isSome) := by
  rcases process_message_spec flags cents g msg with
    h | ⟨_, h⟩ | ⟨_, _, h⟩ | ⟨_, _, _, h⟩ | ⟨_, _, _, _, h⟩ |
    ⟨_, _, _, _, _, h⟩
  · obtain ⟨hs, -, hlat, hlon, -⟩ := step1_some h
    exact iff_of_true (by rw [hs]; decide) ⟨hlat, hlon⟩
  · obtain ⟨hs, -, hlat, hlon, -⟩ := step2_some h
    exact iff_of_true (by rw [hs]; decide) ⟨hlat, hlon⟩
  · obtain ⟨hty, -, -, hlat, hlon, -⟩ := step3_some h
    refine iff_of_true ?_ ⟨hlat, hlon⟩
    rcases hty with h1 | h1 | h1 <;> rw [h1] <;> decide
  · obtain ⟨hs, -, hlat, hlon, -⟩ := step4_some h
    exact iff_of_true (by rw [hs]; decide) ⟨hlat, hlon⟩
  · obtain ⟨hs, -, hlat, hlon, -⟩ := step5_some h
    exact iff_of_true (by rw [hs]; decide) ⟨hlat, hlon⟩
  · rw [h]
    exact iff_of_false (by simp [terminalResult]) (by simp [terminalResult])

/-- C3: the entity-extraction/geocoding stage selects, among the
per-candidate results, the one of maximum confidence with first-seen
tie-breaking; it is accepted (with a re-scored confidence) exactly when that
confidence exceeds 0.3, and otherwise the stage yields nothing and the
pipeline continues with the remaining stages. -/
theorem c3_best_selection (flags : List (String × String))
    (cents : List (String × ℚ × ℚ)) (g : String → Option GeoHit)
    (msg : Message) (c : LocEntity) (cs : List LocEntity)
    (r : GeolocationResult) (rs : List GeolocationResult)
    (hlen : (msg.text.getD "").length > 10)
    (hents : extract_location_entities (msg.text.getD "") = c :: cs)
    (hres : geocode_locations g (c :: cs) = r :: rs) :
    pyMax (fun x => x.confidence) r rs ∈ r :: rs ∧
    (∀ x ∈ r :: rs,
      x.confidence ≤ (pyMax (fun x => x.confidence) r rs).confidence) ∧
    (∃ l1 l2, r :: rs = l1 ++ pyMax (fun x => x.confidence) r rs :: l2 ∧
      ∀ y ∈ l1,
        y.confidence < (pyMax (fun x => x.confidence) r rs).confidence) ∧
    step3 g msg (msg.text.getD "") =
      (if (pyMax (fun x => x.confidence) r rs).confidence > 3 / 10 then
        some { pyMax (fun x => x.confidence) r rs with
               confidence := calculate_confidence_score
                 (pyMax (fun x => x.confidence) r rs) msg }
      else none) ∧
    (¬ (pyMax (fun x => x.confidence) r rs).confidence > 3 / 10 →
      step1 (msg.text.getD "") = none →
      step2 flags cents (msg.text.getD "") = none →
      process_message flags cents g msg =
        stepsAfterEntity flags cents g msg) := by
  have hstep3 : step3 g msg (msg.text.getD "") =
      (if (pyMax (fun x => x.confidence) r rs).confidence > 3 / 10 then
        some { pyMax (fun x => x.confidence) r rs with
               confidence := calculate_confidence_score
                 (pyMax (fun x => x.confidence) r rs) msg }
      else none) := by
    unfold step3
    rw [if_pos hlen, hents]
    dsimp only
    rw [hres]
  refine ⟨pyMax_mem _ _ _, pyMax_le _ _ _, pyMax_first _ _ _, hstep3, ?_⟩
  intro hn h1 h2
  have h3 : step3 g msg (msg.text.getD "") = none := by
    rw [hstep3, if_neg hn]
  unfold process_message process_message_t stepsAfterEntity
  rw [h1, h2, h3]
  cases step4 g (msg.text.getD "") with
  | some r4 => rfl
  | none =>
    cases step5 cents (msg.channel.getD "") with
    | some r5 => rfl
    | none => rfl

/-- Witness for C3: one candidate, a geocoder that matches it with
relevance 0.9, so the best result has confidence 0.36 and is accepted. -/
theorem c3_best_selection_witness :
    pyMax (fun x => x.confidence) wRes [] ∈ wRes :: ([] : List GeolocationResult) ∧
    (∀ x ∈ wRes :: ([] : List GeolocationResult),
      x.confidence ≤ (pyMax (fun x => x.confidence) wRes []).confidence) ∧
    (∃ l1 l2, wRes :: ([] : List GeolocationResult) =
        l1 ++ pyMax (fun x => x.confidence) wRes [] :: l2 ∧
      ∀ y ∈ l1,
        y.confidence < (pyMax (fun x => x.confidence) wRes []).confidence) ∧
    step3 wG wMsg (wMsg.text.getD "") =
      (if (pyMax (fun x => x.confidence) wRes []).confidence > 3 / 10 then
        some { pyMax (fun x => x.confidence) wRes [] with
               confidence := calculate_confidence_score
                 (pyMax (fun x => x.confidence) wRes []) wMsg }
      else none) ∧
    (¬ (pyMax (fun x => x.confidence) wRes []).confidence > 3 / 10 →
      step1 (wMsg.text.getD "") = none →
      step2 [] [] (wMsg.text.getD "") = none →
      process_message [] [] wG wMsg = stepsAfterEntity [] [] wG wMsg) :=
  c3_best_selection [] [] wG wMsg wCand [] wRes []
    (by with_unfolding_all decide) (by with_unfolding_all decide)
    (by with_unfolding_all decide)

/-- C8: a line that fails to parse as JSON is skipped and the batch
continues: the output over `l1 ++ bad :: l2` equals the output over
`l1 ++ l2`, so every well-formed line before and after the malformed one is
still processed and written. -/
theorem c8_malformed_line_skipped (parse : String → Option Message)
    (flags : List (String × String)) (cents : List (String × ℚ × ℚ))
    (g : String → Option GeoHit) (l1 : List String) (bad : String)
    (l2 : List String) (hbad : parse (pyStrip bad) = none) :
    process_file parse flags cents g (l1 ++ bad :: l2) =
      process_file parse flags cents g (l1 ++ l2) := by
  induction l1 with
  | nil =>
    simp only [List.nil_append, process_file, hbad]
  | cons a l1t ih =>
    simp only [List.cons_append, process_file]
    rw [show process_file parse flags cents g (l1t.append (bad :: l2)) =
      process_file parse flags cents g (l1t.append l2) from ih]

/-- Witness for C8: a parser accepting only the line `"g"`, with a malformed
line between two well-formed ones. -/
theorem c8_malformed_line_skipped_witness :
    process_file (fun s => if s = "g" then some (Message.mk (some "")
      (some "")) else none) [] [] (fun _ => none)
      (["g"] ++ "bad" :: ["g"]) =
    process_file (fun s => if s = "g" then some (Message.mk (some "")
      (some "")) else none) [] [] (fun _ => none)
      (["g"] ++ ["g"]) :=
  c8_malformed_line_skipped
    (fun s => if s = "g" then some (Message.mk (some "") (some ""))
      else none) [] [] (fun _ => none) ["g"] "bad" ["g"]
    (by with_unfolding_all decide)

/-- C10: a message lacking the `text` field is processed as if the text were
the empty string, without failing; all text-based stages produce nothing on
it, so the result comes from the channel fallback or is the terminal
`"none"` result, and when the `channel` field is also missing it is the
terminal result.  (The hypothesis that flag symbols are nonempty reflects
the reference data: Python's `'' in text` would be true.) -/
theorem c10_missing_fields (flags : List (String × String))
    (cents : List (String × ℚ × ℚ)) (g : String → Option GeoHit)
    (ch : Option String) (hflags : ∀ p ∈ flags, p.1 ≠ "") :
    process_message flags cents g { text := none, channel := ch } =
      process_message flags cents g { text := some "", channel := ch } ∧
    ((process_message flags cents g
        { text := none, channel := ch }).source = "channel_fallback" ∨
      (process_message flags cents g
        { text := none, channel := ch }).source = "none") ∧
    (ch = none →
      (process_message flags cents g
        { text := none, channel := ch }).source = "none" ∧
      (process_message flags cents g
        { text := none, channel := ch }).confidence = 0) := by
  have h1 : step1 "" = none := by with_unfolding_all decide
  have hfl : extract_flag_countries flags "" = [] := by
    unfold extract_flag_countries
    rw [List.filter_eq_nil_iff.mpr ?_]
    · rfl
    · intro p hp
      have hne : p.1.data ≠ [] := fun hd =>
        hflags p hp (String.ext (hd.trans rfl))
      cases hd : p.1.data with
      | nil => exact absurd hd hne
      | cons c t =>
        show ¬ pyInStr p.1 "".data = true
        rw [show pyInStr p.1 "".data = p.1.data.isEmpty from rfl, hd]
        simp [List.isEmpty]
  have h2 : step2 flags cents "" = none := by
    unfold step2
    rw [hfl]
  have h3 : ∀ msg', step3 g msg' "" = none := by
    intro msg'
    unfold step3
    rw [if_neg (by decide)]
  have h4 : step4 g "" = none := by
    unfold step4
    rw [show extract_place_names "" = [] from by with_unfolding_all decide]
  have key : ∀ T : Option String, T.getD "" = "" →
      process_message flags cents g { text := T, channel := ch } =
        (match step5 cents (ch.getD "") with
          | some r => r
          | none => terminalResult) := by
    intro T hT
    unfold process_message process_message_t
    rw [show ({ text := T, channel := ch } : Message).text.getD "" = "" from
      hT]
    rw [h1, h2, h3, h4]
    cases step5 cents (({ text := T, channel := ch } : Message).channel.getD
      "") with
    | some r => rfl
    | none => rfl
  have keyN := key none rfl
  have keyS := key (some "") rfl
  refine ⟨keyN.trans keyS.symm, ?_, ?_⟩
  · rw [keyN]
    cases h5 : step5 cents (ch.getD "") with
    | some r =>
      left
      exact (step5_some h5).1
    | none => right; rfl
  · intro hch
    subst hch
    have h5 : step5 cents ((none : Option String).getD "") = none := by
      unfold step5
      rw [show channel_country_map.lookup ((none : Option String).getD "") =
        none from by with_unfolding_all decide]
    rw [keyN, h5]
    exact ⟨rfl, rfl⟩

/-- Witness for C10 with the reference flag/centroid data of the examples
and a known channel. -/
theorem c10_missing_fields_witness :
    process_message [("F", "UKR")] [("UKR", (49, 32))] (fun _ => none)
      { text := none, channel := some "militarysummary" } =
      process_message [("F", "UKR")] [("UKR", (49, 32))] (fun _ => none)
        { text := some "", channel := some "militarysummary" } ∧
    ((process_message [("F", "UKR")] [("UKR", (49, 32))] (fun _ => none)
        { text := none, channel := some "militarysummary" }).source =
        "channel_fallback" ∨
      (process_message [("F", "UKR")] [("UKR", (49, 32))] (fun _ => none)
        { text := none, channel := some "militarysummary" }).source =
        "none") ∧
    (some "militarysummary" = none →
      (process_message [("F", "UKR")] [("UKR", (49, 32))] (fun _ => none)
        { text := none, channel := some "militarysummary" }).source =
        "none" ∧
      (process_message [("F", "UKR")] [("UKR", (49, 32))] (fun _ => none)
        { text := none, channel := some "militarysummary" }).confidence =
        0) :=
  c10_missing_fields [("F", "UKR")] [("UKR", (49, 32))] (fun _ => none)
    (some "militarysummary") (by with_unfolding_all decide)

/-! ## Concrete evaluations of the embedding (sanity checks) -/

example : extract_coordinates "a 40.5, -74.25 b" =
    some (81 / 2, -297 / 4) := by with_unfolding_all decide

example : extract_coordinates "99.5, 9.5 1.5, 2.5" = none := by
  with_unfolding_all decide

example : extract_coordinates "lat: 4.5 lon: 7.25" =
    some (9/2, 29/4) := by with_unfolding_all decide

example : extract_coordinates "" = none := by with_unfolding_all decide

example : extract_location_entities "Kyiv, Ukraine" =
    [{ ty := "city_country", city := "Kyiv", country := some "Ukraine",
       query := "Kyiv, Ukraine", confidence := 8 / 10 },
     { ty := "city_only", city := "Kyiv", country := none,
       query := "Kyiv", confidence := 4 / 10 },
     { ty := "city_only", city := "Ukraine", country := none,
       query := "Ukraine", confidence := 4 / 10 }] := by
  with_unfolding_all decide

example : extract_place_names "Kyiv, Ukraine" =
    ["Kyiv", "Ukraine", "Kyiv, Ukraine"] := by with_unfolding_all decide

example : extract_location_entities "Lviv in Ukraine" =
    [{ ty := "city_in_country", city := "Lviv", country := some "Ukraine",
       query := "Lviv, Ukraine", confidence := 7 / 10 },
     { ty := "city_only", city := "Lviv", country := none,
       query := "Lviv", confidence := 4 / 10 },
     { ty := "city_only", city := "Ukraine", country := none,
       query := "Ukraine", confidence := 4 / 10 }] := by
  with_unfolding_all decide

example : extract_place_names "" = [] := by with_unfolding_all decide

example : extract_location_entities "The cat sat" =
    [] := by with_unfolding_all decide

example :
    process_message [("F", "UKR")] [("UKR", (49, 32))] (fun _ => none)
      { text := some "1.5, 2.5 F", channel := none } =
    { lat := some (3 / 2), lon := some (5 / 2), confidence := 95 / 100,
      source := "coordinates_regex",
      geocoding_attempts := ["Found coordinates: (3/2, 5/2)"] } := by
  with_unfolding_all decide

example :
    process_message [("F", "UKR")] [("UKR", (49, 32))] (fun _ => none)
      { text := some "xx F yy", channel := none } =
    { lat := some 49, lon := some 32, country_code := some "UKR",
      confidence := 85 / 100, source := "flag_emoji",
      geocoding_attempts := ["Found flag: UKR"] } := by
  with_unfolding_all decide

example :
    process_message_t [] [] (fun _ => none)
      { text := some "", channel := some "" } = (terminalResult, 5) := by
  with_unfolding_all decide
